import Mathlib

/-!
Verification of the socketkit-js SDK (`src/index.js`), a client library
that validates, signs and transmits analytics events.

The JavaScript source is shallowly embedded: the `Awacs` class becomes a
structure, JS values that may be `undefined`/`null`/`""` become
`Option String` with an explicit falsiness predicate, thrown exceptions
become an `Except` outcome, and the side effects observable through the
injected logger and the HTTP transport become explicit output lists of
log entries and POST calls.  The cryptographic primitive (`Crypto.sign`)
and the transport call (`axios.post`) are external collaborators and are
modelled as oracle parameters: an outcome-valued function for the crypto
try-block and an `Except` value for the transport result.
-/

namespace Socketkit

/-- JavaScript string-ish values: `none` models `undefined`/`null`,
`some s` a string value. -/
abbrev JsStr := Option String

/-- JS falsiness of a string-ish value: `undefined`, `null` and the empty
string are falsy (`!x` is true); every non-empty string is truthy. -/
def falsy : JsStr → Bool
  | none => true
  | some s => s == ""

/-- An exception value as thrown by the JS runtime or by `new Error`. -/
inductive JsError where
  | typeError (msg : String)
  | error (msg : String)
  deriving Repr, DecidableEq

/-- Severities of the logger collaborator (`debug`, `warn`, `error`). -/
inductive LogLevel where
  | debug | warn | error
  deriving Repr, DecidableEq

/-- One line emitted to the injected logger. -/
structure LogEntry where
  level : LogLevel
  msg : String
  deriving Repr, DecidableEq

/-- The closed set of event types of the schema registry. -/
inductive EventType where
  | app_open | in_app_purchase | set_client | custom
  deriving Repr, DecidableEq

/-- An event payload: a JS object with a possibly-absent `name`, an
optional integer `timestamp`, optional free-form `properties` and the
derived `library_version` field.  Fields not inspected by the code are
collapsed into `properties`. -/
structure Event where
  name : JsStr
  timestamp : Option Int := none
  properties : Option (List (String × String)) := none
  library_version : Option String := none
  deriving Repr, DecidableEq

/-- Modelled from the spec: `events.js` (the event schema registry) is not
under `src/`.  Per the spec the registry is the fixed closed mapping from
the four type names `app_open`, `in_app_purchase`, `set_client`, `custom`
to their schemas; `Object.entries(Events)` enumerates exactly these pairs
and every schema value is truthy. -/
def eventsRegistry : List (String × EventType) :=
  [("app_open", EventType.app_open),
   ("in_app_purchase", EventType.in_app_purchase),
   ("set_client", EventType.set_client),
   ("custom", EventType.custom)]

/-- Modelled from the spec: `package.json` is not under `src/`; the SDK
version is a fixed release string whose concrete value is irrelevant to
every claim (only its identity matters), so it is modelled as a fixed
abstract string. -/
def pkg_version : String := "0.0.0"

/-- Modelled from the spec: `validator.js` (the ajv validator) is not
under `src/`.  Per the spec each schema checks the event shape: the
`timestamp` must be present as an integer, and the `app_open` schema
additionally requires the derived `library_version` field. -/
def ajv_validate : EventType → Event → Bool
  | EventType.app_open, e => e.timestamp.isSome && e.library_version.isSome
  | _, e => e.timestamp.isSome

/-- The session state of a constructed `Awacs` client
(`src/index.js` lines 46-50).  The logger itself is modelled by the log
output lists of the operations; `axios.create` only records `baseURL`. -/
structure Awacs where
  signing_key : String
  authorization_key : String
  baseURL : String
  client_id : JsStr
  deriving Repr, DecidableEq

/-- The constructor (`src/index.js` lines 27-51): throws
`[Awacs] Missing ...` for the first of `baseURL`, `authorization_key`,
`signing_key` that is falsy, otherwise returns the fresh session with
`client_id` initialised to `null`. -/
def construct (baseURL authorization_key signing_key : JsStr) :
    Except JsError Awacs :=
  if falsy baseURL then
    Except.error (JsError.error "[Awacs] Missing baseURL")
  else if falsy authorization_key then
    Except.error (JsError.error "[Awacs] Missing authorization_key")
  else if falsy signing_key then
    Except.error (JsError.error "[Awacs] Missing signing_key")
  else
    Except.ok
      { signing_key := signing_key.getD ""
        authorization_key := authorization_key.getD ""
        baseURL := baseURL.getD ""
        client_id := none }

/-- `constructThrows b a s` is true when the constructor throws. -/
def constructThrows (b a s : JsStr) : Bool :=
  match construct b a s with
  | Except.error _ => true
  | Except.ok _ => false

/-- `setClientId` (`src/index.js` lines 64-67): assigns the field and
logs at debug severity. -/
def setClientId (a : Awacs) (client_id : JsStr) : Awacs × List LogEntry :=
  ({ a with client_id := client_id },
   [⟨LogLevel.debug, "[Awacs] Setting client_id"⟩])

/-- Rendering of a JS value inside a template string
(`Received undefined.` for a missing name). -/
def showJsStr : JsStr → String
  | none => "undefined"
  | some s => s

/-- Equality of `Except` values is decidable when it is on both sides. -/
instance {ε α : Type} [DecidableEq ε] [DecidableEq α] :
    DecidableEq (Except ε α) := fun x y =>
  match x, y with
  | Except.ok a, Except.ok b =>
    if h : a = b then Decidable.isTrue (by rw [h])
    else Decidable.isFalse (by simp [h])
  | Except.ok _, Except.error _ => Decidable.isFalse (by simp)
  | Except.error _, Except.ok _ => Decidable.isFalse (by simp)
  | Except.error a, Except.error b =>
    if h : a = b then Decidable.isTrue (by rw [h])
    else Decidable.isFalse (by simp [h])

/-- Result of `isEventValid`: the returned boolean or a thrown exception,
together with the (possibly mutated) event object and the emitted logs. -/
structure ValidResult where
  outcome : Except JsError Bool
  event : Event
  logs : List LogEntry
  deriving Repr, DecidableEq

/-- `isEventValid` (`src/index.js` lines 171-191).  A falsy `name` logs a
warning and returns false.  Otherwise `Object.entries(Events).find(...)`
is destructured: when no registry key matches, `find` yields `undefined`
and the array destructuring throws a TypeError, so the later
`if (!type)` branch (lines 185-188) is unreachable — registry values are
truthy, so once `find` succeeds `type` is never falsy.  When the name is
`app_open` the event is enriched in place with `library_version` before
`ajv.validate` runs. -/
def isEventValid (e : Event) : ValidResult :=
  if falsy e.name then
    { outcome := Except.ok false
      event := e
      logs := [⟨LogLevel.warn,
        "[Awacs] Event does not have a valid name. Received " ++
          showJsStr e.name ++ "."⟩] }
  else
    match eventsRegistry.find? (fun p => some p.1 == e.name) with
    | none =>
      { outcome := Except.error
          (JsError.typeError "undefined is not iterable")
        event := e
        logs := [] }
    | some (_, type) =>
      let e2 := if e.name == some "app_open" then
          { e with library_version := some pkg_version }
        else e
      { outcome := Except.ok (ajv_validate type e2)
        event := e2
        logs := [] }

/-- The payload argument of `sign`: either a JS array of events or any
non-array value. -/
inductive SignPayload where
  | arr (events : List Event)
  | nonArray
  deriving Repr, DecidableEq

/-- Outcome of the crypto try-block of `sign` (serialize with
`JSON.stringify`, wrap the key in the PEM envelope, `Crypto.sign`,
base64-encode): either the base64 signature string or a thrown error
message.  External collaborator, modelled as an oracle over the signing
key and the payload. -/
inductive CryptoOutcome where
  | ok (sig : String)
  | err (msg : String)
  deriving Repr, DecidableEq

/-- `sign` (`src/index.js` lines 97-114): a non-array payload logs an
error and returns `null` without consulting the crypto oracle; for an
array, a thrown crypto error is caught, logged as a warning carrying the
underlying message, and `null` is returned. -/
def sign (crypto : String → List Event → CryptoOutcome)
    (signing_key : String) : SignPayload → Option String × List LogEntry
  | SignPayload.nonArray =>
    (none, [⟨LogLevel.error, "Signing payload is not an array."⟩])
  | SignPayload.arr events =>
    match crypto signing_key events with
    | CryptoOutcome.ok s => (some s, [])
    | CryptoOutcome.err m =>
      (none, [⟨LogLevel.warn,
        "[Awacs] Failed to sign the payload due to " ++ m⟩])

/-- One POST call handed to the transport collaborator. -/
structure PostCall where
  path : String
  body : List Event
  headers : List (String × String)
  deriving Repr, DecidableEq

/-- Result of one `sendEvent` call: the outcome (an uncaught exception or
the undefined return value), the final state of the caller's event object
(mutated in place by enrichment), the log lines and the POST calls. -/
structure SendResult where
  outcome : Except JsError Unit
  event : Event
  logs : List LogEntry
  posts : List PostCall
  deriving Repr, DecidableEq

/-- `sendEvent` (`src/index.js` lines 129-157).  Falsy `client_id` logs a
warning and stops.  An invalid event logs a warning plus the structured
ajv error detail and stops; an exception out of `isEventValid` propagates.
The valid event is wrapped in a one-element array and signed; a falsy
signature stops silently.  Otherwise one POST to `/v1/events` with the
four headers is dispatched, and a transport failure is caught and logged
as a warning. -/
def sendEvent (a : Awacs) (crypto : String → List Event → CryptoOutcome)
    (transport : Except String Unit) (event : Event) : SendResult :=
  if falsy a.client_id then
    { outcome := Except.ok ()
      event := event
      logs := [⟨LogLevel.warn, "[Awacs] You need to set client_id first."⟩]
      posts := [] }
  else
    let v := isEventValid event
    match v.outcome with
    | Except.error err =>
      { outcome := Except.error err, event := v.event
        logs := v.logs, posts := [] }
    | Except.ok false =>
      { outcome := Except.ok ()
        event := v.event
        logs := v.logs ++
          [⟨LogLevel.warn, "[Awacs] Failed to validate event payload"⟩,
           ⟨LogLevel.error, "ajv structured error detail"⟩]
        posts := [] }
    | Except.ok true =>
      let request := [v.event]
      let sres := sign crypto a.signing_key (SignPayload.arr request)
      if falsy sres.1 then
        { outcome := Except.ok (), event := v.event
          logs := v.logs ++ sres.2, posts := [] }
      else
        let post : PostCall :=
          { path := "/v1/events"
            body := request
            headers :=
              [("x-socketkit-key", a.authorization_key),
               ("x-signature", sres.1.getD ""),
               ("x-client-id", a.client_id.getD ""),
               ("user-agent", "socketkit-js-" ++ pkg_version)] }
        match transport with
        | Except.ok _ =>
          { outcome := Except.ok (), event := v.event
            logs := v.logs ++ sres.2, posts := [post] }
        | Except.error m =>
          { outcome := Except.ok (), event := v.event
            logs := v.logs ++ sres.2 ++ [⟨LogLevel.warn, m⟩]
            posts := [post] }

/-! ### Helper lemmas -/

/-- For an `app_open` event the registry lookup succeeds and the event is
enriched with `library_version` before `ajv.validate` runs. -/
lemma isEventValid_app_open_eq (e : Event) (h : e.name = some "app_open") :
    isEventValid e =
      { outcome := Except.ok (ajv_validate EventType.app_open
          { e with library_version := some pkg_version })
        event := { e with library_version := some pkg_version }
        logs := [] } := by
  unfold isEventValid
  rw [h]
  simp [falsy, eventsRegistry]

/-- For any name other than `app_open` the enrichment step leaves the
event object untouched, on every path of `isEventValid` (including the
throwing one). -/
lemma isEventValid_event_of_ne (e : Event) (h : e.name ≠ some "app_open") :
    (isEventValid e).event = e := by
  unfold isEventValid
  by_cases hf : falsy e.name
  · simp [hf]
  · simp only [hf, Bool.false_eq_true, if_false]
    cases hreg : eventsRegistry.find? (fun p => some p.1 == e.name) with
    | none => simp
    | some pr =>
      obtain ⟨k, t⟩ := pr
      simp [h]

/-- A validation run that returns true emitted no log line. -/
lemma isEventValid_logs_of_ok_true (e : Event)
    (h : (isEventValid e).outcome = Except.ok true) :
    (isEventValid e).logs = [] := by
  unfold isEventValid at h ⊢
  by_cases hf : falsy e.name
  · simp [hf] at h
  · simp only [hf, Bool.false_eq_true, if_false] at h ⊢
    cases hreg : eventsRegistry.find? (fun p => some p.1 == e.name) with
    | none => simp [hreg] at h
    | some pr =>
      obtain ⟨k, t⟩ := pr
      simp [hreg]

/-- A successful crypto oracle makes `sign` return the signature with no
log line. -/
lemma sign_of_crypto_ok (crypto : String → List Event → CryptoOutcome)
    (key : String) (events : List Event) (s : String)
    (h : crypto key events = CryptoOutcome.ok s) :
    sign crypto key (SignPayload.arr events) = (some s, []) := by
  simp [sign, h]

/-- Whenever the `client_id` guard passes, the event object returned to
the caller is exactly the one produced by `isEventValid` (every later
branch of `sendEvent` carries it through unchanged). -/
lemma sendEvent_event_eq (a : Awacs)
    (crypto : String → List Event → CryptoOutcome)
    (transport : Except String Unit) (e : Event)
    (h : falsy a.client_id = false) :
    (sendEvent a crypto transport e).event = (isEventValid e).event := by
  unfold sendEvent
  simp only [h, Bool.false_eq_true, if_false]
  cases hv : (isEventValid e).outcome with
  | error err => simp
  | ok b =>
    cases b with
    | false => simp
    | true =>
      simp only []
      split
      · rfl
      · cases transport with
        | ok u => rfl
        | error m => rfl

/-- Full characterization of a `sendEvent` call that reaches the
dispatch step: given a truthy `client_id`, a valid event and a truthy
signature, exactly one POST is dispatched, the outcome is the undefined
return value, and the only extra log line is the warning for a failed
transport. -/
lemma sendEvent_signed_eq (a : Awacs)
    (crypto : String → List Event → CryptoOutcome)
    (transport : Except String Unit) (e : Event) (s : String)
    (h1 : falsy a.client_id = false)
    (h2 : (isEventValid e).outcome = Except.ok true)
    (h3 : crypto a.signing_key [(isEventValid e).event] = CryptoOutcome.ok s)
    (h4 : (s == "") = false) :
    sendEvent a crypto transport e =
      { outcome := Except.ok ()
        event := (isEventValid e).event
        logs := (match transport with
          | Except.ok _ => []
          | Except.error m => [⟨LogLevel.warn, m⟩])
        posts := [{ path := "/v1/events"
                    body := [(isEventValid e).event]
                    headers :=
                      [("x-socketkit-key", a.authorization_key),
                       ("x-signature", s),
                       ("x-client-id", a.client_id.getD ""),
                       ("user-agent", "socketkit-js-" ++ pkg_version)] }] } := by
  unfold sendEvent
  simp only [h1, Bool.false_eq_true, if_false, h2]
  rw [sign_of_crypto_ok crypto a.signing_key [(isEventValid e).event] s h3]
  simp only [falsy, h4, Bool.false_eq_true, if_false,
    isEventValid_logs_of_ok_true e h2, List.nil_append, List.append_nil,
    Option.getD_some]
  cases transport with
  | ok u => rfl
  | error m => rfl

/-! ### Sample values used by the witnesses -/

/-- A fully configured session with a client id already set. -/
def sampleSession : Awacs :=
  { signing_key := "sk"
    authorization_key := "ak"
    baseURL := "https://example.com"
    client_id := some "11111111-1111-1111-1111-111111111111" }

/-- A crypto oracle that always succeeds with a fixed base64 signature. -/
def cryptoOK : String → List Event → CryptoOutcome :=
  fun _ _ => CryptoOutcome.ok "c2ln"

/-- A crypto oracle that always throws (e.g. a malformed private key). -/
def cryptoFail : String → List Event → CryptoOutcome :=
  fun _ _ => CryptoOutcome.err "error:0909006C:PEM routines"

/-- A minimal valid `custom` event. -/
def sampleCustomEvent : Event :=
  { name := some "custom", timestamp := some 1700000000000 }

/-- An `app_open` event with no timestamp: it fails schema validation,
yet the enrichment step still mutates it. -/
def appOpenNoTimestamp : Event := { name := some "app_open" }

/-- A session on which `setClientId` was never called. -/
def noClientSession : Awacs := { sampleSession with client_id := none }

/-- An `app_open` event whose caller supplied a `library_version`. -/
def appOpenCallerVersion : Event :=
  { name := some "app_open", timestamp := some 5,
    library_version := some "caller" }

/-! ### Claim theorems -/

/-- Claim C1: the claim asserts that sending an event whose name is not
a registry key signals invalidity without throwing (one warning, zero
POST calls).  The code violates this: with a client id set,
`sendEvent` on the event with name `bogus` throws a TypeError — the
destructuring of the failed registry `find` — producing zero log lines
and zero POST calls, and the rejection escapes the call.  This theorem
evaluates the embedding at that failing input. -/
theorem sendEvent_bogus_name_throws :
    sendEvent sampleSession cryptoOK (Except.ok ()) { name := some "bogus" } =
      { outcome := Except.error (JsError.typeError "undefined is not iterable")
        event := { name := some "bogus" }
        logs := []
        posts := [] } := by
  rfl

/-- Claim C2: for every event named `app_open` processed by `sendEvent`,
`library_version` is set to the SDK package version on the event object
before the schema validation check runs, overwriting any caller-supplied
value, so every transmitted payload carries `library_version` equal to
the SDK's own version. -/
theorem app_open_library_version_enrichment (a : Awacs)
    (crypto : String → List Event → CryptoOutcome)
    (transport : Except String Unit) (e : Event)
    (h : e.name = some "app_open") :
    (isEventValid e).event.library_version = some pkg_version ∧
    (isEventValid e).outcome =
      Except.ok (ajv_validate EventType.app_open ((isEventValid e).event)) ∧
    ((sendEvent a crypto transport e).posts.all
      (fun p => p.body.all
        (fun ev => ev.library_version == some pkg_version))) = true := by
  rw [isEventValid_app_open_eq e h]
  refine ⟨rfl, rfl, ?_⟩
  by_cases hc : falsy a.client_id
  · simp [sendEvent, hc]
  · unfold sendEvent
    simp only [hc, Bool.false_eq_true, if_false,
      isEventValid_app_open_eq e h]
    cases hv : ajv_validate EventType.app_open
        { e with library_version := some pkg_version } with
    | false => simp
    | true =>
      simp only []
      split
      · simp
      · cases transport with
        | ok u => simp
        | error m => simp

/-- Claim C2 witness: a caller-supplied `library_version` on an
`app_open` event is overwritten with the SDK version. -/
theorem app_open_library_version_enrichment_witness :
    (appOpenCallerVersion.name = some "app_open") ∧
    ((isEventValid appOpenCallerVersion).event.library_version =
      some pkg_version ∧
    (isEventValid appOpenCallerVersion).outcome =
      Except.ok (ajv_validate EventType.app_open
        ((isEventValid appOpenCallerVersion).event)) ∧
    ((sendEvent sampleSession cryptoOK (Except.ok ())
        appOpenCallerVersion).posts.all
      (fun p => p.body.all
        (fun ev => ev.library_version == some pkg_version))) = true) :=
  ⟨rfl, app_open_library_version_enrichment sampleSession cryptoOK
    (Except.ok ()) appOpenCallerVersion rfl⟩

/-- Claim C3: construction throws if and only if at least one of
`baseURL`, `authorization_key`, `signing_key` is missing or falsy;
with all three truthy it succeeds. -/
theorem construct_throws_iff_missing_field (b a s : JsStr) :
    constructThrows b a s = (falsy b || falsy a || falsy s) := by
  unfold constructThrows construct
  by_cases hb : falsy b <;> by_cases ha : falsy a <;>
    by_cases hs : falsy s <;> simp [hb, ha, hs]

/-- Claim C4: when the session's `client_id` is unset (falsy),
`sendEvent` logs one warning and stops: the event is untouched, no POST
is made, no signing log appears, and no exception is raised. -/
theorem sendEvent_without_client_id_warns_and_stops (a : Awacs)
    (crypto : String → List Event → CryptoOutcome)
    (transport : Except String Unit) (e : Event)
    (h : falsy a.client_id = true) :
    sendEvent a crypto transport e =
      { outcome := Except.ok ()
        event := e
        logs := [⟨LogLevel.warn, "[Awacs] You need to set client_id first."⟩]
        posts := [] } := by
  simp [sendEvent, h]

/-- Claim C4 witness: a freshly relevant session with `client_id = null`
drops a valid event with a single warning. -/
theorem sendEvent_without_client_id_warns_and_stops_witness :
    falsy noClientSession.client_id = true ∧
    sendEvent noClientSession cryptoOK
        (Except.ok ()) sampleCustomEvent =
      { outcome := Except.ok ()
        event := sampleCustomEvent
        logs := [⟨LogLevel.warn, "[Awacs] You need to set client_id first."⟩]
        posts := [] } :=
  ⟨rfl, sendEvent_without_client_id_warns_and_stops _ cryptoOK
    (Except.ok ()) sampleCustomEvent rfl⟩

/-- Claim C5: a valid event that passes the guard, validation and
signing is dispatched as exactly one POST to `/v1/events` whose body is
the one-element array containing the event and whose headers are exactly
`x-socketkit-key`, `x-signature`, `x-client-id` and `user-agent` with
the specified values. -/
theorem sendEvent_dispatches_single_post (a : Awacs)
    (crypto : String → List Event → CryptoOutcome)
    (transport : Except String Unit) (e : Event) (s : String)
    (h1 : falsy a.client_id = false)
    (h2 : (isEventValid e).outcome = Except.ok true)
    (h3 : crypto a.signing_key [(isEventValid e).event] = CryptoOutcome.ok s)
    (h4 : (s == "") = false) :
    (sendEvent a crypto transport e).posts =
      [{ path := "/v1/events"
         body := [(isEventValid e).event]
         headers :=
           [("x-socketkit-key", a.authorization_key),
            ("x-signature", s),
            ("x-client-id", a.client_id.getD ""),
            ("user-agent", "socketkit-js-" ++ pkg_version)] }] := by
  rw [sendEvent_signed_eq a crypto transport e s h1 h2 h3 h4]

/-- Claim C5 witness: the happy path on a concrete `custom` event
produces the single fully specified POST call. -/
theorem sendEvent_dispatches_single_post_witness :
    falsy sampleSession.client_id = false ∧
    (isEventValid sampleCustomEvent).outcome = Except.ok true ∧
    cryptoOK sampleSession.signing_key
      [(isEventValid sampleCustomEvent).event] = CryptoOutcome.ok "c2ln" ∧
    (("c2ln" == "") = false) ∧
    (sendEvent sampleSession cryptoOK (Except.ok ())
        sampleCustomEvent).posts =
      [{ path := "/v1/events"
         body := [(isEventValid sampleCustomEvent).event]
         headers :=
           [("x-socketkit-key", sampleSession.authorization_key),
            ("x-signature", "c2ln"),
            ("x-client-id", sampleSession.client_id.getD ""),
            ("user-agent", "socketkit-js-" ++ pkg_version)] }] :=
  ⟨rfl, rfl, rfl, rfl,
    sendEvent_dispatches_single_post sampleSession cryptoOK (Except.ok ())
      sampleCustomEvent "c2ln" rfl rfl rfl rfl⟩

/-- Claim C6: for every non-array input, `sign` logs the problem and
returns `null` without throwing; the result holds for every crypto
oracle, so no serialization or cryptographic operation is attempted. -/
theorem sign_non_array_returns_null
    (crypto : String → List Event → CryptoOutcome) (key : String) :
    sign crypto key SignPayload.nonArray =
      (none, [⟨LogLevel.error, "Signing payload is not an array."⟩]) := by
  rfl

/-- Claim C7: for every array payload, an exception thrown inside the
crypto try-block of `sign` is caught, logged as a warning carrying the
underlying error message, and `sign` returns `null` instead of
propagating it. -/
theorem sign_catches_crypto_error
    (crypto : String → List Event → CryptoOutcome) (key : String)
    (events : List Event) (m : String)
    (h : crypto key events = CryptoOutcome.err m) :
    sign crypto key (SignPayload.arr events) =
      (none, [⟨LogLevel.warn,
        "[Awacs] Failed to sign the payload due to " ++ m⟩]) := by
  simp [sign, h]

/-- Claim C7 witness: a key-parsing failure on a concrete payload is
caught and logged with its message. -/
theorem sign_catches_crypto_error_witness :
    cryptoFail "sk" [sampleCustomEvent] =
      CryptoOutcome.err "error:0909006C:PEM routines" ∧
    sign cryptoFail "sk" (SignPayload.arr [sampleCustomEvent]) =
      (none, [⟨LogLevel.warn,
        "[Awacs] Failed to sign the payload due to " ++
          "error:0909006C:PEM routines"⟩]) :=
  ⟨rfl, sign_catches_crypto_error cryptoFail "sk" [sampleCustomEvent]
    "error:0909006C:PEM routines" rfl⟩

/-- Claim C8: when a valid event's signature comes back absent,
`sendEvent` stops with no POST call and adds no log line of its own —
the resulting log output is exactly what the Signer emitted. -/
theorem sendEvent_absent_signature_silent_stop (a : Awacs)
    (crypto : String → List Event → CryptoOutcome)
    (transport : Except String Unit) (e : Event)
    (h1 : falsy a.client_id = false)
    (h2 : (isEventValid e).outcome = Except.ok true)
    (h3 : (sign crypto a.signing_key
      (SignPayload.arr [(isEventValid e).event])).1 = none) :
    sendEvent a crypto transport e =
      { outcome := Except.ok ()
        event := (isEventValid e).event
        logs := (sign crypto a.signing_key
          (SignPayload.arr [(isEventValid e).event])).2
        posts := [] } := by
  unfold sendEvent
  simp only [h1, Bool.false_eq_true, if_false, h2]
  rw [h3]
  simp [falsy, isEventValid_logs_of_ok_true e h2]

/-- Claim C8 witness: a failing crypto oracle stops a concrete valid
send with only the Signer's warning in the log. -/
theorem sendEvent_absent_signature_silent_stop_witness :
    falsy sampleSession.client_id = false ∧
    (isEventValid sampleCustomEvent).outcome = Except.ok true ∧
    (sign cryptoFail sampleSession.signing_key
      (SignPayload.arr [(isEventValid sampleCustomEvent).event])).1 = none ∧
    sendEvent sampleSession cryptoFail (Except.ok ()) sampleCustomEvent =
      { outcome := Except.ok ()
        event := (isEventValid sampleCustomEvent).event
        logs := (sign cryptoFail sampleSession.signing_key
          (SignPayload.arr [(isEventValid sampleCustomEvent).event])).2
        posts := [] } :=
  ⟨rfl, rfl, rfl,
    sendEvent_absent_signature_silent_stop sampleSession cryptoFail
      (Except.ok ()) sampleCustomEvent rfl rfl rfl⟩

/-- Claim C9: for an event that reaches the dispatch step, a transport
failure is caught and logged as a warning, never propagates to the
caller, and `sendEvent`'s return value is the same as on transport
success — only the log stream distinguishes the two outcomes. -/
theorem sendEvent_transport_failure_logged_not_propagated (a : Awacs)
    (crypto : String → List Event → CryptoOutcome)
    (e : Event) (s m : String)
    (h1 : falsy a.client_id = false)
    (h2 : (isEventValid e).outcome = Except.ok true)
    (h3 : crypto a.signing_key [(isEventValid e).event] = CryptoOutcome.ok s)
    (h4 : (s == "") = false) :
    (sendEvent a crypto (Except.error m) e).outcome = Except.ok () ∧
    (sendEvent a crypto (Except.error m) e).logs =
      (sendEvent a crypto (Except.ok ()) e).logs ++
        [⟨LogLevel.warn, m⟩] ∧
    (sendEvent a crypto (Except.error m) e).posts =
      (sendEvent a crypto (Except.ok ()) e).posts ∧
    (sendEvent a crypto (Except.ok ()) e).outcome = Except.ok () := by
  rw [sendEvent_signed_eq a crypto (Except.error m) e s h1 h2 h3 h4,
    sendEvent_signed_eq a crypto (Except.ok ()) e s h1 h2 h3 h4]
  simp

/-- Claim C9 witness: a concrete 500-style transport failure is logged
and swallowed, leaving the same outcome as a successful dispatch. -/
theorem sendEvent_transport_failure_logged_witness :
    falsy sampleSession.client_id = false ∧
    (isEventValid sampleCustomEvent).outcome = Except.ok true ∧
    cryptoOK sampleSession.signing_key
      [(isEventValid sampleCustomEvent).event] = CryptoOutcome.ok "c2ln" ∧
    (("c2ln" == "") = false) ∧
    ((sendEvent sampleSession cryptoOK
        (Except.error "Request failed with status code 500")
        sampleCustomEvent).outcome = Except.ok () ∧
      (sendEvent sampleSession cryptoOK
        (Except.error "Request failed with status code 500")
        sampleCustomEvent).logs =
        (sendEvent sampleSession cryptoOK (Except.ok ())
          sampleCustomEvent).logs ++
          [⟨LogLevel.warn, "Request failed with status code 500"⟩] ∧
      (sendEvent sampleSession cryptoOK
        (Except.error "Request failed with status code 500")
        sampleCustomEvent).posts =
        (sendEvent sampleSession cryptoOK (Except.ok ())
          sampleCustomEvent).posts ∧
      (sendEvent sampleSession cryptoOK (Except.ok ())
        sampleCustomEvent).outcome = Except.ok ()) :=
  ⟨rfl, rfl, rfl, rfl,
    sendEvent_transport_failure_logged_not_propagated sampleSession
      cryptoOK sampleCustomEvent "c2ln"
      "Request failed with status code 500" rfl rfl rfl rfl⟩

/-- Claim C10: once the `client_id` guard passes, `sendEvent` mutates
its argument in place exactly when its name is `app_open`: the enriched
`library_version` is visible on the caller's object after the call even
when validation subsequently fails, and events of every other name come
back unmodified. -/
theorem sendEvent_mutates_app_open_event_in_place (a : Awacs)
    (crypto : String → List Event → CryptoOutcome)
    (transport : Except String Unit) (e : Event)
    (h : falsy a.client_id = false) :
    (e.name = some "app_open" →
      (sendEvent a crypto transport e).event =
        { e with library_version := some pkg_version }) ∧
    (e.name ≠ some "app_open" →
      (sendEvent a crypto transport e).event = e) := by
  constructor
  · intro hn
    rw [sendEvent_event_eq a crypto transport e h,
      isEventValid_app_open_eq e hn]
  · intro hn
    rw [sendEvent_event_eq a crypto transport e h,
      isEventValid_event_of_ne e hn]

/-- Claim C10 witness: an `app_open` event with no timestamp fails
validation and is never transmitted, yet the caller's object carries
the injected `library_version` after the call. -/
theorem sendEvent_mutates_app_open_event_witness :
    falsy sampleSession.client_id = false ∧
    (sendEvent sampleSession cryptoOK (Except.ok ())
        appOpenNoTimestamp).event =
      { appOpenNoTimestamp with library_version := some pkg_version } :=
  ⟨rfl,
    (sendEvent_mutates_app_open_event_in_place sampleSession cryptoOK
      (Except.ok ()) appOpenNoTimestamp rfl).1 rfl⟩

end Socketkit
